import Mathlib

/-!
Verification of the expressBookReviews service: a shallow embedding of the
in-memory book catalog (`router/booksdb.js`), the credential store and
authenticated routes (`router/auth_users.js`), the public routes
(`router/general.js`) and the authentication middleware (`index.js`),
together with theorems settling the specification's claims about them.

JavaScript objects used as string-keyed maps are embedded as association
lists `List (String × α)` in insertion order (JS enumerates integer-like
keys in ascending order; the seed catalog is listed in that order).
Promise rejection is embedded as `Except String` carrying the rejection
message; store mutation is explicit state passing.
-/

namespace BookReviews

/-- Association-list lookup, the embedding of JS property read `m[k]`
(`undefined` becomes `none`). -/
def aLookup {α : Type} (m : List (String × α)) (k : String) : Option α :=
  match m with
  | [] => none
  | (k', v) :: rest => if k' == k then some v else aLookup rest k

/-- Association-list update, the embedding of JS property write `m[k] = v`:
overwrites an existing binding in place, otherwise appends a new one
(JS insertion-order enumeration). -/
def aSet {α : Type} (m : List (String × α)) (k : String) (v : α) : List (String × α) :=
  match m with
  | [] => [(k, v)]
  | (k', v') :: rest =>
      if k' == k then (k, v) :: rest else (k', v') :: aSet rest k v

/-- Association-list deletion, the embedding of JS `delete m[k]`. -/
def aDelete {α : Type} (m : List (String × α)) (k : String) : List (String × α) :=
  m.filter (fun p => !(p.1 == k))

/-- JS truthiness of an optional string: `undefined` and the empty string
are falsy, every other string is truthy. -/
def truthyStr (o : Option String) : Bool :=
  match o with
  | none => false
  | some s => !(s == "")

/-- A book record of `router/booksdb.js` (`books` seed object layout).
The seed ratings all carry exactly one decimal place, so `ratingTenths`
embeds the numeric literal `4.5` exactly as `45`; no operation of the
code reads the rating. -/
structure Book where
  author : String
  title : String
  reviews : List (String × String)
  genre : List String
  year : Int
  ratingTenths : Nat
  deriving DecidableEq

/-- The catalog: ISBN (string key) to book, in seed/insertion order. -/
abbrev Catalog := List (String × Book)

/-- Rejection message of `booksdb.js` for an unknown ISBN:
`Book with ISBN ${isbn} not found`. -/
def bookNotFoundMsg (isbn : String) : String :=
  "Book with ISBN " ++ isbn ++ " not found"

/-- Rejection message of `booksdb.js` for a missing review:
`No review found for user ${username}`. -/
def noReviewMsg (username : String) : String :=
  "No review found for user " ++ username

/-- `bookDatabase.getBookByISBN` (booksdb.js): resolves the book or rejects
with the not-found message. -/
def getBookByISBN (bs : Catalog) (isbn : String) : Except String Book :=
  match aLookup bs isbn with
  | some book => .ok book
  | none => .error (bookNotFoundMsg isbn)

/-- `bookDatabase.addReview` (booksdb.js): rejects if the ISBN is absent,
otherwise sets `books[isbn].reviews[username] = review` and resolves the
updated book. The returned catalog is the post-mutation store. -/
def addReview (bs : Catalog) (isbn username review : String) :
    Except String Book × Catalog :=
  match aLookup bs isbn with
  | none => (.error (bookNotFoundMsg isbn), bs)
  | some book =>
      let book' := { book with reviews := aSet book.reviews username review }
      (.ok book', aSet bs isbn book')

/-- `bookDatabase.deleteReview` (booksdb.js): rejects if the ISBN is absent;
rejects with the no-review message if `books[isbn].reviews[username]` is
falsy (absent or the empty string); otherwise deletes the entry and resolves
the updated book. The returned catalog is the post-mutation store. -/
def deleteReview (bs : Catalog) (isbn username : String) :
    Except String Book × Catalog :=
  match aLookup bs isbn with
  | none => (.error (bookNotFoundMsg isbn), bs)
  | some book =>
      if !truthyStr (aLookup book.reviews username) then
        (.error (noReviewMsg username), bs)
      else
        let book' := { book with reviews := aDelete book.reviews username }
        (.ok book', aSet bs isbn book')

/-- `bookDatabase.getReviews` (booksdb.js): rejects if the ISBN is absent,
otherwise resolves the (possibly empty) reviews map. -/
def getReviews (bs : Catalog) (isbn : String) :
    Except String (List (String × String)) :=
  match aLookup bs isbn with
  | none => .error (bookNotFoundMsg isbn)
  | some book => .ok book.reviews

/-- Char-list prefix test (used to embed JS `String.prototype.includes` and
Express path-prefix matching). -/
def listIsPre (needle hay : List Char) : Bool :=
  match needle, hay with
  | [], _ => true
  | _ :: _, [] => false
  | a :: as, b :: bs => a == b && listIsPre as bs

/-- Char-list substring test: `needle` occurs contiguously in `hay`. -/
def listIsSub (needle hay : List Char) : Bool :=
  match hay with
  | [] => needle.isEmpty
  | _ :: t => listIsPre needle hay || listIsSub needle t

/-- Embedding of JS `hay.includes(needle)` on strings. -/
def strIncludes (hay needle : String) : Bool :=
  listIsSub needle.toList hay.toList

/-- Embedding of JS `s.toLowerCase()`; on the ASCII-uppercase letters
appearing in the seed data this agrees with the library. -/
def jsToLower (s : String) : String :=
  String.mk (s.toList.map Char.toLower)

/-- `bookDatabase.searchByAuthor` (booksdb.js): keeps, in catalog order,
exactly the books whose lowercased author contains the lowercased search
string; resolves the (possibly empty) result map, never rejects. -/
def searchByAuthor (bs : Catalog) (author : String) : Catalog :=
  bs.filter (fun p => strIncludes (jsToLower p.2.author) (jsToLower author))

/-- `bookDatabase.searchByTitle` (booksdb.js): same policy against titles. -/
def searchByTitle (bs : Catalog) (title : String) : Catalog :=
  bs.filter (fun p => strIncludes (jsToLower p.2.title) (jsToLower title))

/-- The seed catalog of `router/booksdb.js` (keys "1".."10" in JS
ascending integer-key enumeration order). -/
def seedBooks : Catalog :=
  [ ("1", { author := "Chinua Achebe", title := "Things Fall Apart",
            reviews := [], genre := ["Fiction", "Historical"],
            year := 1958, ratingTenths := 45 }),
    ("2", { author := "Hans Christian Andersen", title := "Fairy tales",
            reviews := [], genre := ["Fantasy", "Children"],
            year := 1837, ratingTenths := 43 }),
    ("3", { author := "Dante Alighieri", title := "The Divine Comedy",
            reviews := [], genre := ["Epic Poetry", "Classic"],
            year := 1320, ratingTenths := 47 }),
    ("4", { author := "Unknown", title := "The Epic Of Gilgamesh",
            reviews := [], genre := ["Epic Poetry", "Ancient"],
            year := -2100, ratingTenths := 42 }),
    ("5", { author := "Unknown", title := "The Book Of Job",
            reviews := [], genre := ["Religious", "Philosophy"],
            year := -600, ratingTenths := 44 }),
    ("6", { author := "Unknown", title := "One Thousand and One Nights",
            reviews := [], genre := ["Folklore", "Fantasy"],
            year := 800, ratingTenths := 46 }),
    ("7", { author := "Unknown", title := "Nj\xe1l\x27s Saga",
            reviews := [], genre := ["Saga", "Historical"],
            year := 1280, ratingTenths := 41 }),
    ("8", { author := "Jane Austen", title := "Pride and Prejudice",
            reviews := [], genre := ["Romance", "Classic"],
            year := 1813, ratingTenths := 48 }),
    ("9", { author := "Honor\xe9 de Balzac", title := "Le P\xe8re Goriot",
            reviews := [], genre := ["Realism", "Fiction"],
            year := 1835, ratingTenths := 40 }),
    ("10", { author := "Samuel Beckett",
             title := "Molloy, Malone Dies, The Unnamable, the trilogy",
             reviews := [], genre := ["Modernist", "Philosophical"],
             year := 1951, ratingTenths := 42 }) ]

/-- A user record of `router/auth_users.js` (`users` store entries). -/
structure User where
  username : String
  password : String
  registeredAt : String
  deriving DecidableEq

/-- The initial in-memory user store of auth_users.js: `let users = []`. -/
def usersInit : List User := []

/-- `isValidUsername` (auth_users.js): the regex
`^[a-zA-Z0-9_]{3,30}$` — 3 to 30 characters, each an ASCII letter, digit
or underscore. -/
def isValidUsername (s : String) : Bool :=
  decide (3 ≤ s.length) && decide (s.length ≤ 30) &&
    s.toList.all (fun c => c.isAlphanum || c == '_')

/-- Result shape of `validatePassword` (auth_users.js). -/
structure PasswordValidation where
  success : Bool
  message : Option String
  deriving DecidableEq

/-- `validatePassword` (auth_users.js): fails below 6 or above 100
characters, succeeds otherwise. -/
def validatePassword (p : String) : PasswordValidation :=
  if p.length < 6 then
    { success := false,
      message := some "Password must be at least 6 characters long" }
  else if p.length > 100 then
    { success := false,
      message := some "Password must be less than 100 characters" }
  else
    { success := true, message := none }

/-- `authenticateUser` (auth_users.js): some stored user matches both
username and password by exact equality. -/
def authenticateUser (users : List User) (username password : String) : Bool :=
  users.any (fun user => user.username == username && user.password == password)

/-- Outcome of the POST /register handler (general.js), with the HTTP
status it responds with. -/
inductive RegisterResult where
  | badRequest (status : Nat) (message : String)
  | conflict (status : Nat) (message : String)
  | created (status : Nat) (username registeredAt : String)
  deriving DecidableEq

/-- The POST /register handler of general.js, over the user store, with
`now` standing for `new Date().toISOString()`. Missing body fields are
embedded as the empty string (the only falsy string). Returns the
response outcome and the post-request user store. -/
def register (users : List User) (username password now : String) :
    RegisterResult × List User :=
  if username == "" || password == "" then
    (.badRequest 400 "Username and password are required", users)
  else if !isValidUsername username then
    (.badRequest 400 "Invalid username format", users)
  else if !(validatePassword password).success then
    (.badRequest 400
      ((validatePassword password).message.getD ""), users)
  else if users.any (fun user => user.username == username) then
    (.conflict 409 "Username already exists", users)
  else
    (.created 201 username now,
     users ++ [{ username := username, password := password,
                 registeredAt := now }])

/-- JWT claims minted at login (auth_users.js `tokenPayload`): username,
issued-at and expiry in epoch seconds. -/
structure TokenPayload where
  username : String
  iat : Nat
  exp : Nat
  deriving DecidableEq

/-- A signed token. The signature is embedded as the secret the token was
signed with: verification against a secret succeeds exactly when the two
secrets coincide, which is the correctness contract of HS256
sign/verify. -/
structure SignedToken where
  payload : TokenPayload
  signedWith : String
  deriving DecidableEq

/-- Failure cases of token verification, as the middleware distinguishes
them (`err.name === 'TokenExpiredError'` versus any other error). -/
inductive VerifyError where
  | tokenExpired
  | otherInvalid
  deriving DecidableEq

/-- Behaviour of the external `jwt.verify(token, secret)` at time `now`
(epoch seconds), per the jsonwebtoken contract the spec relies on: a
signature made with a different secret fails as invalid; an expired
`exp` claim fails as `TokenExpiredError`; otherwise the decoded payload
is returned. -/
def jwtVerify (t : SignedToken) (secret : String) (now : Nat) :
    Except VerifyError TokenPayload :=
  if !(t.signedWith == secret) then .error .otherInvalid
  else if t.payload.exp ≤ now then .error .tokenExpired
  else .ok t.payload

/-- The session's `authorization` entry as stored at login
(auth_users.js: `req.session.authorization = {accessToken, username,
loggedInAt}`). -/
structure Authorization where
  accessToken : SignedToken
  username : String
  loggedInAt : String
  deriving DecidableEq

/-- Outcome of the authentication middleware: either a JSON denial with a
status, message and error field, or the request is forwarded to the
handler with the decoded claims attached as `req.user`. -/
inductive AuthOutcome where
  | denied (status : Nat) (message : String) (error : String)
  | granted (user : TokenPayload)
  deriving DecidableEq

/-- `authMiddleware` (index.js): 401 "No active session" when the session
has no authorization entry; otherwise `jwt.verify` on the stored access
token — 403 with "Token expired" or "Invalid token" on failure, and
`next()` with the decoded claims on success. -/
def authMiddleware (session : Option Authorization) (secret : String)
    (now : Nat) : AuthOutcome :=
  match session with
  | none =>
      .denied 401 "Authentication required. Please log in." "No active session"
  | some auth =>
      match jwtVerify auth.accessToken secret now with
      | .error e =>
          .denied 403 "Authentication failed. Please log in again."
            (match e with
             | .tokenExpired => "Token expired"
             | .otherInvalid => "Invalid token")
      | .ok decoded => .granted decoded

/-- Embedding of JS `s.trim()` (ASCII whitespace suffices for the inputs
in play): drops whitespace from both ends. -/
def jsTrim (s : String) : String :=
  String.mk
    (((s.toList.dropWhile Char.isWhitespace).reverse.dropWhile
        Char.isWhitespace).reverse)

/-- Response of the PUT /customer/auth/review/:isbn handler
(auth_users.js): status, success flag, the `action` field of the success
payload (`none` on failure) and the `error` code (`none` on success). -/
structure PutReviewResponse where
  status : Nat
  success : Bool
  action : Option String
  error : Option String
  deriving DecidableEq

/-- The PUT /customer/auth/review/:isbn handler (auth_users.js), after the
gate has granted access: validates the review body, calls
`booksdb.addReview` with the trimmed text, and computes `action` by
comparing the stored review against the trimmed text AFTER the write.
Returns the response and the post-request catalog. -/
def putReviewHandler (bs : Catalog) (isbn username review : String) :
    PutReviewResponse × Catalog :=
  if review == "" || (jsTrim review).length == 0 then
    ({ status := 400, success := false, action := none,
       error := some "REVIEW_CONTENT_REQUIRED" }, bs)
  else if review.length > 1000 then
    ({ status := 400, success := false, action := none,
       error := some "REVIEW_TOO_LONG" }, bs)
  else
    match addReview bs isbn username (jsTrim review) with
    | (.error _, bs') =>
        ({ status := 404, success := false, action := none,
           error := some "BOOK_NOT_FOUND" }, bs')
    | (.ok updatedBook, bs') =>
        let action :=
          if aLookup updatedBook.reviews username == some (jsTrim review)
          then "added" else "updated"
        ({ status := 200, success := true, action := some action,
           error := none }, bs')

/-- Response of the DELETE /customer/auth/review/:isbn handler
(auth_users.js). -/
structure DeleteReviewResponse where
  status : Nat
  success : Bool
  error : Option String
  deriving DecidableEq

/-- The DELETE /customer/auth/review/:isbn handler (auth_users.js), after
the gate: calls `booksdb.deleteReview`; on rejection the status is 404
when the message contains "not found" (400 otherwise) and the error code
is REVIEW_NOT_FOUND when it contains "No review" (BOOK_NOT_FOUND
otherwise). -/
def deleteReviewHandler (bs : Catalog) (isbn username : String) :
    DeleteReviewResponse × Catalog :=
  match deleteReview bs isbn username with
  | (.ok _, bs') =>
      ({ status := 200, success := true, error := none }, bs')
  | (.error msg, bs') =>
      ({ status := if strIncludes msg "not found" then 404 else 400,
         success := false,
         error := some (if strIncludes msg "No review"
                        then "REVIEW_NOT_FOUND" else "BOOK_NOT_FOUND") }, bs')

/-- Response of the GET /customer/auth/profile handler (auth_users.js). -/
structure ProfileResponse where
  status : Nat
  success : Bool
  username : String
  registeredAt : String
  lastLogin : String
  deriving DecidableEq

/-- The GET /customer/auth/profile handler (auth_users.js), after the
gate: looks the session's username up in the user store and always
responds 200, with `registeredAt` falling back to the literal "Unknown"
when the user is absent (or has a falsy `registeredAt`), and `lastLogin`
taken from the session's `loggedInAt`. -/
def profileHandler (users : List User) (auth : Authorization) :
    ProfileResponse :=
  let user := users.find? (fun u => u.username == auth.username)
  { status := 200, success := true, username := auth.username,
    registeredAt :=
      match user with
      | some u => if u.registeredAt == "" then "Unknown" else u.registeredAt
      | none => "Unknown",
    lastLogin := auth.loggedInAt }

/-- Embedding of JS `s.startsWith(pre)` / Express path-prefix matching. -/
def strStarts (s pre : String) : Bool :=
  listIsPre pre.toList s.toList

/-- A JSON field value, as far as the claims inspect response bodies. -/
inductive JVal where
  | jstr (s : String)
  | jbool (b : Bool)
  | jnum (n : Nat)
  deriving DecidableEq

/-- An HTTP JSON response: status code and body fields in emission order. -/
structure JsonResponse where
  status : Nat
  body : List (String × JVal)
  deriving DecidableEq

/-- Whether a response body carries a field named `k`. -/
def hasField (r : JsonResponse) (k : String) : Bool :=
  r.body.any (fun p => p.1 == k)

/-- The GET /health handler of `router/general.js` (the one the dispatch
reaches): always 200 with success, message, timestamp, service and
version fields — and no uptime field. `now` stands for
`new Date().toISOString()`. -/
def generalHealthHandler (now : String) : JsonResponse :=
  { status := 200,
    body := [("success", .jbool true),
             ("message", .jstr "Service is healthy"),
             ("timestamp", .jstr now),
             ("service", .jstr "Book Review API"),
             ("version", .jstr "1.0.0")] }

/-- The GET /health handler of `index.js` (registered after the catch-all
404 middleware, hence unreachable): 200 with success, message, timestamp
and uptime fields. `uptimeSeconds` embeds `process.uptime()` (its
fractional part is irrelevant to every claim). -/
def indexHealthHandler (now : String) (uptimeSeconds : Nat) : JsonResponse :=
  { status := 200,
    body := [("success", .jbool true),
             ("message", .jstr "Service is healthy"),
             ("timestamp", .jstr now),
             ("uptime", .jnum uptimeSeconds)] }

/-- The routes of `router/general.js`, in registration order. -/
inductive GeneralRoute where
  | registerRoute
  | rootRoute
  | isbnRoute
  | authorRoute
  | titleRoute
  | reviewRoute
  | healthRoute
  | apiDocsRoute
  deriving DecidableEq

/-- Route matching of the general router, in the registration order of
general.js: POST /register, then the GET routes `/`, `/isbn/:isbn`,
`/author/:author`, `/title/:title`, `/review/:isbn`, `/health`,
`/api-docs`. A `:param` route matches any path extending its literal
prefix. -/
def matchGeneralRoute (method path : String) : Option GeneralRoute :=
  if method == "POST" && path == "/register" then some .registerRoute
  else if !(method == "GET") then none
  else if path == "/" then some .rootRoute
  else if strStarts path "/isbn/" then some .isbnRoute
  else if strStarts path "/author/" then some .authorRoute
  else if strStarts path "/title/" then some .titleRoute
  else if strStarts path "/review/" then some .reviewRoute
  else if path == "/health" then some .healthRoute
  else if path == "/api-docs" then some .apiDocsRoute
  else none

/-- Where the application stack of index.js sends a request. -/
inductive AppTarget where
  | gatedCustomer
  | customerOnly
  | generalR (r : GeneralRoute)
  | notFound404
  deriving DecidableEq

/-- The middleware/router stack of index.js in registration order:
`authMiddleware` on "/customer/auth/\x2a", the customer router on
"/customer", the general router on "/", then the catch-all 404 handler.
The `app.get` for /health in index.js is registered after the catch-all,
so no request ever reaches it: dispatch resolves strictly earlier. -/
def appRoute (method path : String) : AppTarget :=
  if strStarts path "/customer/auth/" then .gatedCustomer
  else if path == "/customer" || strStarts path "/customer/" then .customerOnly
  else
    match matchGeneralRoute method path with
    | some r => .generalR r
    | none => .notFound404

/-- Decidable equality for `Except`, so store results evaluate under
`decide`. -/
instance instDecidableEqExcept {ε α : Type} [DecidableEq ε] [DecidableEq α] :
    DecidableEq (Except ε α) := fun a b =>
  match a, b with
  | .ok x, .ok y =>
      if h : x = y then .isTrue (congrArg Except.ok h)
      else .isFalse (fun hc => h (Except.ok.inj hc))
  | .error x, .error y =>
      if h : x = y then .isTrue (congrArg Except.error h)
      else .isFalse (fun hc => h (Except.error.inj hc))
  | .ok _, .error _ => .isFalse (fun hc => Except.noConfusion hc)
  | .error _, .ok _ => .isFalse (fun hc => Except.noConfusion hc)

/-! ## Association-list lemmas -/

theorem aLookup_aSet_self {α : Type} (m : List (String × α)) (k : String)
    (v : α) : aLookup (aSet m k v) k = some v := by
  induction m with
  | nil => simp [aSet, aLookup]
  | cons p rest ih =>
      obtain ⟨k', v'⟩ := p
      cases h : k' == k with
      | true => simp [aSet, h, aLookup]
      | false => simp [aSet, h, aLookup, ih]

theorem aSet_aSet_self {α : Type} (m : List (String × α)) (k : String)
    (v w : α) : aSet (aSet m k v) k w = aSet m k w := by
  induction m with
  | nil => simp [aSet]
  | cons p rest ih =>
      obtain ⟨k', v'⟩ := p
      cases h : k' == k with
      | true => simp [aSet, h]
      | false => simp [aSet, h, ih]

/-! ## Claims -/

/-- C1. Every request to a path under /customer/auth/ is routed through the
gate first; with no session authorization entry the gate denies with 401
and error "No active session" (the handler is never reached); with an
entry whose token fails verification it denies with 403, saying
"Token expired" for an expired token and "Invalid token" otherwise; and
only a verifiable, unexpired token forwards the request to the handler,
carrying the decoded claims. -/
theorem authGate_spec (method path secret : String) (now : Nat) :
    (strStarts path "/customer/auth/" = true →
      appRoute method path = .gatedCustomer)
    ∧ authMiddleware none secret now =
        .denied 401 "Authentication required. Please log in."
          "No active session"
    ∧ (∀ auth : Authorization,
        (jwtVerify auth.accessToken secret now = .error .tokenExpired →
          authMiddleware (some auth) secret now =
            .denied 403 "Authentication failed. Please log in again."
              "Token expired")
        ∧ (jwtVerify auth.accessToken secret now = .error .otherInvalid →
          authMiddleware (some auth) secret now =
            .denied 403 "Authentication failed. Please log in again."
              "Invalid token")
        ∧ (∀ decoded : TokenPayload,
            jwtVerify auth.accessToken secret now = .ok decoded →
            authMiddleware (some auth) secret now = .granted decoded)) := by
  refine ⟨fun h => ?_, rfl, fun auth => ⟨fun h => ?_, fun h => ?_, fun d h => ?_⟩⟩
  · simp [appRoute, h]
  · simp [authMiddleware, h]
  · simp [authMiddleware, h]
  · simp [authMiddleware, h]

/-- Concrete instance of C1: the review route is gated, and a token that
expired (exp 10, now 100) under the right secret is denied with 403
"Token expired". -/
theorem authGate_spec_witness :
    appRoute "PUT" "/customer/auth/review/1" = .gatedCustomer ∧
    authMiddleware
        (some { accessToken := { payload := { username := "alice", iat := 0,
                                              exp := 10 },
                                 signedWith := "access" },
                username := "alice", loggedInAt := "t0" }) "access" 100 =
      .denied 403 "Authentication failed. Please log in again."
        "Token expired" :=
  ⟨(authGate_spec "PUT" "/customer/auth/review/1" "access" 100).1 (by decide),
   ((authGate_spec "PUT" "/customer/auth/review/1" "access" 100).2.2
      { accessToken := { payload := { username := "alice", iat := 0,
                                      exp := 10 },
                         signedWith := "access" },
        username := "alice", loggedInAt := "t0" }).1 (by
          simp [jwtVerify])⟩

/-- C2. For every username of valid shape and password of valid length not
yet stored, registration succeeds with 201 and appends the user, after
which authentication with the same credentials returns true. -/
theorem register_then_authenticate (users : List User) (u p now : String)
    (hu : isValidUsername u = true)
    (hp : (validatePassword p).success = true)
    (habs : users.any (fun user => user.username == u) = false) :
    (register users u p now).1 = .created 201 u now ∧
    authenticateUser (register users u p now).2 u p = true := by
  have hune : (u == "") = false := by
    cases h : u == "" with
    | false => rfl
    | true =>
        rw [show u = "" from by simpa using h] at hu
        exact absurd hu (by decide)
  have hpne : (p == "") = false := by
    cases h : p == "" with
    | false => rfl
    | true =>
        rw [show p = "" from by simpa using h] at hp
        exact absurd hp (by decide)
  have hreg : register users u p now =
      (.created 201 u now,
       users ++ [{ username := u, password := p, registeredAt := now }]) := by
    simp [register, hune, hpne, hu, hp, habs]
  rw [hreg]
  refine ⟨rfl, ?_⟩
  simp [authenticateUser]

/-- Concrete instance of C2: registering "alice" with "secret1" on the
empty store yields 201 and authenticates afterwards. -/
theorem register_then_authenticate_witness :
    (register usersInit "alice" "secret1" "2024-01-01").1 =
      .created 201 "alice" "2024-01-01" ∧
    authenticateUser (register usersInit "alice" "secret1" "2024-01-01").2
      "alice" "secret1" = true :=
  register_then_authenticate usersInit "alice" "secret1" "2024-01-01"
    (by decide) (by decide) (by decide)

/-- The uniqueness invariant of the user store: no two stored users share
a username. -/
def usersNodup (users : List User) : Prop :=
  (users.map User.username).Nodup

/-- C3. The user store starts empty; register — the only operation that
adds a user — preserves username uniqueness, and a second registration of
the same username (with a valid password) yields 409 Conflict once the
first succeeded. -/
theorem register_username_uniqueness (users : List User)
    (u p p' now now' : String) :
    usersNodup usersInit
    ∧ (usersNodup users → usersNodup (register users u p now).2)
    ∧ ((validatePassword p').success = true →
       (register users u p now).1 = .created 201 u now →
       (register (register users u p now).2 u p' now').1 =
         .conflict 409 "Username already exists") := by
  refine ⟨by simp [usersNodup, usersInit], ?_, ?_⟩
  · intro hnd
    unfold register
    split
    · exact hnd
    · split
      · exact hnd
      · split
        · exact hnd
        · split
          · exact hnd
          · rename_i hany
            rw [Bool.not_eq_true] at hany
            have hnotmem : u ∉ users.map User.username := by
              intro hmem
              obtain ⟨user, huser, heq⟩ := List.mem_map.mp hmem
              have : users.any (fun user => user.username == u) = true := by
                simp only [List.any_eq_true]
                exact ⟨user, huser, by simp [heq]⟩
              simp [this] at hany
            simp only [usersNodup, List.map_append, List.map_cons,
              List.map_nil]
            exact List.Nodup.append hnd (List.nodup_singleton u)
              ((List.disjoint_singleton).mpr hnotmem)
  · intro hp' hfst
    have hpne' : (p' == "") = false := by
      cases h : p' == "" with
      | false => rfl
      | true =>
          rw [show p' = "" from by simpa using h] at hp'
          exact absurd hp' (by decide)
    by_cases h1 : (u == "" || p == "") = true
    · simp [register, h1] at hfst
    · rw [Bool.not_eq_true] at h1
      by_cases h2 : isValidUsername u = true
      · by_cases h3 : (validatePassword p).success = true
        · by_cases h4 : users.any (fun user => user.username == u) = true
          · simp [register, h1, h2, h3, h4] at hfst
          · rw [Bool.not_eq_true] at h4
            have hune : (u == "") = false := by
              rcases Bool.or_eq_false_iff.mp h1 with ⟨hl, _⟩
              exact hl
            have hreg : register users u p now =
                (.created 201 u now,
                 users ++ [{ username := u, password := p,
                             registeredAt := now }]) := by
              simp [register, h1, h2, h3, h4]
            rw [hreg]
            simp [register, hune, hpne', h2, hp', List.any_append]
        · rw [Bool.not_eq_true] at h3
          simp [register, h1, h2, h3] at hfst
      · rw [Bool.not_eq_true] at h2
        simp [register, h1, h2] at hfst

/-- Concrete instance of C3: registering "alice" once preserves
uniqueness, and registering "alice" again yields 409 Conflict. -/
theorem register_username_uniqueness_witness :
    usersNodup (register usersInit "alice" "secret1" "t1").2 ∧
    (register (register usersInit "alice" "secret1" "t1").2 "alice"
        "secret2" "t2").1 = .conflict 409 "Username already exists" :=
  ⟨(register_username_uniqueness usersInit "alice" "secret1" "secret2"
      "t1" "t2").2.1 (by simp [usersNodup, usersInit]),
   (register_username_uniqueness usersInit "alice" "secret1" "secret2"
      "t1" "t2").2.2 (by decide) (by decide)⟩

/-- The seed catalog's book "1". -/
def bookOne : Book :=
  { author := "Chinua Achebe", title := "Things Fall Apart",
    reviews := [], genre := ["Fiction", "Historical"],
    year := 1958, ratingTenths := 45 }

/-- Book "1" carrying an empty-string review by "alice", as produced by
`addReview seedBooks "1" "alice" ""`. -/
def bookOneEmptyReview : Book :=
  { bookOne with reviews := [("alice", "")] }

/-- The store state after `addReview seedBooks "1" "alice" ""`: an entry
for "alice" exists in book "1"'s reviews map, but its text is empty. -/
def emptyReviewCatalog : Catalog :=
  aSet seedBooks "1" bookOneEmptyReview

/-- Counterexample to C4 as stated: the state is reachable by a store
call (`addReview` with the empty string), book "1" is present and its
reviews map has an entry for "alice" — yet `deleteReview` fails with the
review-not-found error and leaves the store unchanged instead of removing
the entry. -/
theorem deleteReview_entry_counterexample :
    (addReview seedBooks "1" "alice" "").2 = emptyReviewCatalog
    ∧ aLookup seedBooks "1" = some bookOne
    ∧ aLookup bookOneEmptyReview.reviews "alice" = some ""
    ∧ deleteReview emptyReviewCatalog "1" "alice" =
        (.error (noReviewMsg "alice"), emptyReviewCatalog) := by
  refine ⟨by decide, by decide, by decide, by decide⟩

/-- C4 as amended: `deleteReview` decides review existence by JS
truthiness of the stored text, so: an absent ISBN fails with the
book-not-found error; a present ISBN whose reviews map has no non-empty
entry for the username (no entry at all, or an entry with empty text)
fails with the review-not-found error and leaves the store unchanged;
a present ISBN with a non-empty entry has exactly that entry removed and
the updated book returned. -/
theorem deleteReview_spec_amended (bs : Catalog) (isbn username : String) :
    (aLookup bs isbn = none →
      deleteReview bs isbn username = (.error (bookNotFoundMsg isbn), bs))
    ∧ (∀ book : Book, aLookup bs isbn = some book →
        (truthyStr (aLookup book.reviews username) = false →
          deleteReview bs isbn username =
            (.error (noReviewMsg username), bs))
        ∧ (truthyStr (aLookup book.reviews username) = true →
          deleteReview bs isbn username =
            (.ok { book with reviews := aDelete book.reviews username },
             aSet bs isbn
               { book with reviews := aDelete book.reviews username }))) := by
  refine ⟨fun h => ?_, fun book h => ⟨fun ht => ?_, fun ht => ?_⟩⟩
  · simp [deleteReview, h]
  · simp [deleteReview, h, ht]
  · simp [deleteReview, h, ht]

/-- Concrete instance of the amended C4: an unknown ISBN fails with the
book-not-found error, and a book with no review entry for the user fails
with the review-not-found error. -/
theorem deleteReview_spec_amended_witness :
    deleteReview seedBooks "999" "alice" =
      (.error (bookNotFoundMsg "999"), seedBooks)
    ∧ deleteReview seedBooks "1" "alice" =
        (.error (noReviewMsg "alice"), seedBooks) :=
  ⟨(deleteReview_spec_amended seedBooks "999" "alice").1 (by decide),
   ((deleteReview_spec_amended seedBooks "1" "alice").2 bookOne
      (by decide)).1 (by decide)⟩

/-- C5. For a catalog ISBN, `addReview` followed by `getReviews` maps the
username to the text; upserting again for the same (isbn, username)
overwrites — the state after writing t1 then t2 equals the state after
writing t2 alone — and re-issuing the identical upsert is idempotent. -/
theorem upsertReview_overwrite_idempotent (bs : Catalog)
    (isbn username t1 t2 : String) (book : Book)
    (h : aLookup bs isbn = some book) :
    getReviews (addReview bs isbn username t1).2 isbn =
      .ok (aSet book.reviews username t1)
    ∧ aLookup (aSet book.reviews username t1) username = some t1
    ∧ (addReview (addReview bs isbn username t1).2 isbn username t2).2 =
        (addReview bs isbn username t2).2
    ∧ (addReview (addReview bs isbn username t1).2 isbn username t1).2 =
        (addReview bs isbn username t1).2 := by
  obtain ⟨a, t, r, g, y, rt⟩ := book
  have h1 : (addReview bs isbn username t1).2 =
      aSet bs isbn ⟨a, t, aSet r username t1, g, y, rt⟩ := by
    simp [addReview, h]
  refine ⟨?_, aLookup_aSet_self _ _ _, ?_, ?_⟩
  · rw [h1]
    simp [getReviews, aLookup_aSet_self]
  · rw [h1]
    simp [addReview, aLookup_aSet_self, h, aSet_aSet_self]
  · rw [h1]
    simp [addReview, aLookup_aSet_self, h, aSet_aSet_self]

/-- Concrete instance of C5 on the seed catalog: write, read back,
overwrite, idempotence. -/
theorem upsertReview_overwrite_idempotent_witness :
    getReviews (addReview seedBooks "1" "alice" "Great book").2 "1" =
      .ok (aSet bookOne.reviews "alice" "Great book")
    ∧ (addReview (addReview seedBooks "1" "alice" "Great book").2 "1"
          "alice" "Even better").2 =
        (addReview seedBooks "1" "alice" "Even better").2 :=
  ⟨(upsertReview_overwrite_idempotent seedBooks "1" "alice" "Great book"
      "Even better" bookOne (by decide)).1,
   (upsertReview_overwrite_idempotent seedBooks "1" "alice" "Great book"
      "Even better" bookOne (by decide)).2.2.1⟩

/-- C6. `searchByAuthor` keeps exactly the seed entries whose author
contains the search string case-insensitively, yields an empty mapping
(not an error) when nothing matches, and on the seed data "achebe"
returns exactly the single entry with ISBN 1, author "Chinua Achebe",
title "Things Fall Apart". -/
theorem searchByAuthor_spec (s : String) :
    (∀ entry : String × Book,
        entry ∈ searchByAuthor seedBooks s ↔
          entry ∈ seedBooks ∧
            strIncludes (jsToLower entry.2.author) (jsToLower s) = true)
    ∧ searchByAuthor seedBooks "achebe" = [("1", bookOne)]
    ∧ bookOne.author = "Chinua Achebe"
    ∧ bookOne.title = "Things Fall Apart"
    ∧ searchByAuthor seedBooks "tolstoy" = [] := by
  refine ⟨fun entry => List.mem_filter, by decide, rfl, rfl, by decide⟩

/-- Store state in which "alice" already has the review "An old review"
on book "1" (written through the store's own upsert). -/
def catalogAliceOld : Catalog :=
  (addReview seedBooks "1" "alice" "An old review").2

/-- C7 (code bug witness): with a prior review by "alice" on book "1"
("An old review"), a successful PUT with the different text
"A new review" still answers action = "added" — the handler compares the
stored review to the new text after the write, so the comparison always
succeeds and "updated" is never reported. -/
theorem putReview_action_always_added :
    aLookup catalogAliceOld "1" =
      some { bookOne with reviews := [("alice", "An old review")] }
    ∧ (putReviewHandler catalogAliceOld "1" "alice" "A new review").1 =
        { status := 200, success := true, action := some "added",
          error := none } := by
  refine ⟨by decide, by decide⟩

/-- Counterexample to C8 as stated: GET /health dispatches to the general
router's health route, which answers 200 with a timestamp — but its body
carries no uptime field (the uptime-bearing handler in index.js sits
after the catch-all 404 middleware and is unreachable). -/
theorem health_uptime_counterexample :
    appRoute "GET" "/health" = .generalR .healthRoute
    ∧ (generalHealthHandler "2024-01-01T00:00:00.000Z").status = 200
    ∧ hasField (generalHealthHandler "2024-01-01T00:00:00.000Z")
        "timestamp" = true
    ∧ hasField (generalHealthHandler "2024-01-01T00:00:00.000Z")
        "uptime" = false := by
  refine ⟨by decide, rfl, by decide, by decide⟩

/-- C8 as amended: GET /health requires no authentication (its path is
not under the gated prefix), never fails — for every timestamp the
reached handler answers 200 — and the body carries timestamp, service
and version fields but, contrary to the original claim, no uptime
field. -/
theorem health_spec_amended (now : String) :
    appRoute "GET" "/health" = .generalR .healthRoute
    ∧ strStarts "/health" "/customer/auth/" = false
    ∧ (generalHealthHandler now).status = 200
    ∧ aLookup (generalHealthHandler now).body "timestamp" = some (.jstr now)
    ∧ hasField (generalHealthHandler now) "uptime" = false := by
  refine ⟨by decide, by decide, rfl, ?_, ?_⟩
  · simp [generalHealthHandler, aLookup]
  · simp [hasField, generalHealthHandler]

/-- C9. The store-level deleteReview decides review existence by JS
truthiness of the stored text: when a present book binds the username to
the empty string, deletion fails with the review-not-found error and
leaves the store untouched even though an entry for that username
exists. -/
theorem deleteReview_empty_review_falsy (bs : Catalog)
    (isbn username : String) (book : Book)
    (h : aLookup bs isbn = some book)
    (he : aLookup book.reviews username = some "") :
    deleteReview bs isbn username = (.error (noReviewMsg username), bs) := by
  simp [deleteReview, h, he, truthyStr]

/-- Concrete instance of C9 on the reachable empty-review state. -/
theorem deleteReview_empty_review_falsy_witness :
    deleteReview emptyReviewCatalog "1" "alice" =
      (.error (noReviewMsg "alice"), emptyReviewCatalog) :=
  deleteReview_empty_review_falsy emptyReviewCatalog "1" "alice"
    bookOneEmptyReview (by decide) (by decide)

/-- C10. GET /customer/auth/profile never fails once the gate has passed:
when the session's username names no stored user, it still answers 200
with that username, registeredAt the literal "Unknown", and lastLogin the
session entry's loggedInAt. -/
theorem profile_unknown_user_ok (users : List User) (auth : Authorization)
    (h : ∀ u ∈ users, u.username ≠ auth.username) :
    profileHandler users auth =
      { status := 200, success := true, username := auth.username,
        registeredAt := "Unknown", lastLogin := auth.loggedInAt } := by
  have hf : users.find? (fun u => u.username == auth.username) = none := by
    rw [List.find?_eq_none]
    intro u hu
    simp [h u hu]
  simp [profileHandler, hf]

/-- Concrete instance of C10: a session for "ghost" over a store that
only holds "bob" still gets a 200 profile with registeredAt
"Unknown". -/
theorem profile_unknown_user_ok_witness :
    profileHandler
        [{ username := "bob", password := "pw1234", registeredAt := "t1" }]
        { accessToken := { payload := { username := "ghost", iat := 0,
                                        exp := 10 },
                           signedWith := "access" },
          username := "ghost", loggedInAt := "2024-02-02" } =
      { status := 200, success := true, username := "ghost",
        registeredAt := "Unknown", lastLogin := "2024-02-02" } :=
  profile_unknown_user_ok _ _ (by decide)

end BookReviews
